import Mathlib

/-!
Verification of the chronproc alarm-clock firmware (src/main.c) against its
natural-language specification.  The C program is shallowly embedded: every
global variable of main.c becomes a field of `DeviceState`, every C function
that the claims touch becomes a Lean function on `DeviceState`, and hardware
register writes and busy-wait delays are recorded as explicit `HwAction`
values.  Machine integers are modelled as `Int` (C `int`, `time_t`) with an
explicit truncation `toU32` wherever the C code stores into a 32-bit
hardware register.
-/

namespace Chronproc

/-- Truncation of a C integer value stored into a 32-bit hardware register
(`RTC_TAR`, `RTC_TSR`, `PTB->PDOR` take the low 32 bits of the value). -/
def toU32 (x : Int) : Nat := (x % (2 ^ 32)).toNat

/-- Two-complement bitwise NOT of a C `int`, as used in `~(1 << lightIndex)`. -/
def cNot (x : Int) : Int := -x - 1

/-- C left shift `1 << e` for a nonnegative shift amount `e`
(the program only shifts by `lightIndex` values in `0..19`). -/
def shl1 (e : Int) : Int := 2 ^ e.toNat

/-- `TOTAL_NOTES` from main.c. -/
def TOTAL_NOTES : Int := 10

/-- `TOTAL_LIGHT_STATES` from main.c. -/
def TOTAL_LIGHT_STATES : Int := 20

/-- One observable hardware side effect of the firmware: a speaker tone of a
given busy-wait duration (`MakeSound`), a bare busy-wait (`Delay`), or a
write to the LED output register `PTB->PDOR` (a direct store, an `&= ~mask`,
or an `|= mask`). -/
inductive HwAction where
  | makeSound (duration : Int)
  | delay (bound : Int)
  | pdorSet (value : Nat)
  | pdorAndNot (mask : Nat)
  | pdorOr (mask : Nat)
deriving DecidableEq

/-- The global state of main.c: the configuration and playback globals, the
static local `currentRepeatCount` of `handleAlarmRepeats` (initialised to 1),
and the RTC alarm and time registers written by the program. -/
structure DeviceState where
  selectedMelodyID : Int
  selectedLightEffectID : Int
  alarmEnabled : Bool
  alarmRepeatCount : Int
  alarmIntervalSeconds : Int
  globalAlarmTime : Int
  isPlayingMelody : Bool
  isShowingLights : Bool
  melodyIndex : Int
  lightIndex : Int
  currentRepeatCount : Int
  rtcTAR : Nat
  rtcTSR : Nat
deriving DecidableEq

/-- The state right after `main` finishes initialisation: the C global
initialisers of main.c, `currentRepeatCount = 1`, and the register values
written by `RTCInit` (`RTC_TSR = 0`, `RTC_TAR = 0xFFFFFFFF`). -/
def initDevice : DeviceState :=
  { selectedMelodyID := 1
    selectedLightEffectID := 1
    alarmEnabled := false
    alarmRepeatCount := 5
    alarmIntervalSeconds := 5
    globalAlarmTime := 0
    isPlayingMelody := false
    isShowingLights := false
    melodyIndex := 0
    lightIndex := 0
    currentRepeatCount := 1
    rtcTAR := 0xFFFFFFFF
    rtcTSR := 0 }

/-- `startMelody` from main.c. -/
def startMelody (melodyID : Int) (s : DeviceState) : DeviceState :=
  { s with selectedMelodyID := melodyID, melodyIndex := 0, isPlayingMelody := true }

/-- `startLightEffect` from main.c. -/
def startLightEffect (lightEffectID : Int) (s : DeviceState) : DeviceState :=
  { s with selectedLightEffectID := lightEffectID, lightIndex := 0,
           isShowingLights := true }

/-- `playNextNote` from main.c: one step of the tone sequencer.  Returns the
new state and the hardware actions emitted by this call (the `switch` on
`selectedMelodyID`; a melody id outside 1..3 falls through the switch and
emits nothing, but the index still advances). -/
def playNextNote (s : DeviceState) : DeviceState × List HwAction :=
  if s.melodyIndex < TOTAL_NOTES then
    ({ s with melodyIndex := s.melodyIndex + 1 },
     if s.selectedMelodyID = 1 then
       [.makeSound (50000 + s.melodyIndex * 5000), .delay 50000]
     else if s.selectedMelodyID = 2 then
       [.makeSound (100000 + s.melodyIndex * 10000), .delay 10000,
        .makeSound (100000 + s.melodyIndex * 10000), .delay 10000,
        .makeSound (100000 + s.melodyIndex * 10000)]
     else if s.selectedMelodyID = 3 then
       [.makeSound (10000 + s.melodyIndex * 5000), .delay 2000,
        .makeSound (100000 + s.melodyIndex * 5000), .delay 10000,
        .makeSound (10000 + s.melodyIndex * 5000), .delay 5000,
        .makeSound (100000 + s.melodyIndex * 5000), .delay 1000]
     else [])
  else
    ({ s with isPlayingMelody := false }, [])

/-- `updateLights` from main.c: one step of the light sequencer.  Effect 1
toggles all four LED bits (mask `0x3C`); effects 2 and 3 store
`~(1 << lightIndex)` resp. `~(1 << (lightIndex % 4 + 2))` into `PTB->PDOR`. -/
def updateLights (s : DeviceState) : DeviceState × List HwAction :=
  if s.lightIndex < TOTAL_LIGHT_STATES then
    ({ s with lightIndex := s.lightIndex + 1 },
     if s.selectedLightEffectID = 1 then
       [(if s.lightIndex % 2 = 0 then HwAction.pdorAndNot 0x3C
         else HwAction.pdorOr 0x3C), .delay 200000]
     else if s.selectedLightEffectID = 2 then
       [.pdorSet (toU32 (cNot (shl1 s.lightIndex))), .delay 200000]
     else if s.selectedLightEffectID = 3 then
       [.pdorSet (toU32 (cNot (shl1 (s.lightIndex % 4 + 2)))), .delay 200000]
     else [])
  else
    ({ s with isShowingLights := false }, [])

/-- `handleAlarmRepeats` from main.c.  Returns the new state and, when the
playback branch is taken, the computed `nextAlarmTime` that was armed into
`RTC_TAR` (as an exact integer; the register itself receives its low 32
bits).  `none` means the evaluation started no playback. -/
def handleAlarmRepeats (s : DeviceState) : DeviceState × Option Int :=
  if s.alarmEnabled then
    if s.currentRepeatCount < s.alarmRepeatCount + 1 then
      let nextAlarmTime :=
        s.globalAlarmTime + s.currentRepeatCount * s.alarmIntervalSeconds
      (startLightEffect s.selectedLightEffectID
        (startMelody s.selectedMelodyID
          { s with rtcTAR := toU32 nextAlarmTime,
                   currentRepeatCount := s.currentRepeatCount + 1 }),
       some nextAlarmTime)
    else
      ({ s with currentRepeatCount := 1, rtcTAR := 0 }, none)
  else
    ({ s with currentRepeatCount := 1, rtcTAR := 0 }, none)

/-- The `while (isPlayingMelody && isShowingLights)` playback loop of
`RTC_IRQHandler`, with explicit fuel.  The loop body flips
`isPlayingMelody` to false as soon as `melodyIndex` passes `TOTAL_NOTES`,
so any fuel above 11 is sufficient; the theorems below show the guard is
false in the state the loop returns, i.e. the fuel never ran out. -/
def playbackLoop : Nat → DeviceState → DeviceState × List HwAction
  | 0, s => (s, [])
  | fuel + 1, s =>
    if s.isPlayingMelody && s.isShowingLights then
      let p1 := playNextNote s
      let p2 := updateLights p1.1
      let p3 := playbackLoop fuel p2.1
      (p3.1, p1.2 ++ p2.2 ++ p3.2)
    else
      (s, [])

/-- `RTC_IRQHandler` from main.c, for an invocation with the time-alarm
flag set: run `handleAlarmRepeats`, then, if the alarm is enabled, drive
the playback loop to completion and force all LEDs off
(`PTB->PDOR |= 0x3C`). -/
def RTC_IRQHandler (s : DeviceState) : DeviceState × List HwAction :=
  let p := handleAlarmRepeats s
  if p.1.alarmEnabled then
    let q := playbackLoop 30 p.1
    (q.1, q.2 ++ [.pdorOr 0x3C])
  else
    (p.1, [])

/-- A run of consecutive match evaluations (one `handleAlarmRepeats` per
hardware match), recorded as the list of armed `nextAlarmTime` values of
the evaluations that started playback.  The run stops at the first
evaluation that starts no playback (the evaluation that clears `RTC_TAR`),
or when the fuel is exhausted. -/
def firingTrace : Nat → DeviceState → List Int × DeviceState
  | 0, s => ([], s)
  | fuel + 1, s =>
    match handleAlarmRepeats s with
    | (s2, some t) =>
      let p := firingTrace fuel s2
      (t :: p.1, p.2)
    | (s2, none) => ([], s2)

/-- Iterate `playNextNote` a given number of times, collecting the emitted
hardware actions (used to reason about `step()` call counts). -/
def stepsMelody : Nat → DeviceState → DeviceState × List HwAction
  | 0, s => (s, [])
  | n + 1, s =>
    let p1 := playNextNote s
    let p2 := stepsMelody n p1.1
    (p2.1, p1.2 ++ p2.2)

/-- Iterate `updateLights` a given number of times, collecting the emitted
hardware actions. -/
def stepsLights : Nat → DeviceState → DeviceState × List HwAction
  | 0, s => (s, [])
  | n + 1, s =>
    let p1 := updateLights s
    let p2 := stepsLights n p1.1
    (p2.1, p1.2 ++ p2.2)

/-- `setAlarmRepeat` from main.c, applied to the two integers the user
entered (the C code obtains them by `atoi` on the received lines; the
second prompt is only issued when the first value passed its check, which
is why the interval is only consulted inside the first branch).  Note the
order of operations in the source: `alarmRepeatCount` is assigned before
the interval is read and checked. -/
def setAlarmRepeat (repeatCount intervalSeconds : Int) (s : DeviceState) :
    DeviceState :=
  if 0 ≤ repeatCount then
    let s1 := { s with alarmRepeatCount := repeatCount }
    if 0 < intervalSeconds then
      { s1 with alarmIntervalSeconds := intervalSeconds }
    else s1
  else s

/-! ### The date and time input path

`getUserTimeInput` reads a line and parses it with
`sscanf(buffer, "%d-%d-%d %d:%d:%d", ...)`, then range-checks the six
fields.  The `sscanf` call (C library, external to the repository) is
modelled directive by directive: `%d` skips leading whitespace and reads
an optionally signed decimal integer, a literal character in the format
must match exactly, and a blank in the format skips any run of
whitespace. -/

/-- Whitespace as recognised by `sscanf`. -/
def isWs (c : Char) : Bool :=
  c = ' ' ∨ c = '\t' ∨ c = '\n' ∨ c = '\r' ∨ c = '\x0b' ∨ c = '\x0c'

/-- Drop leading whitespace. -/
def skipWs : List Char → List Char
  | [] => []
  | c :: r => if isWs c then skipWs r else c :: r

/-- Consume a maximal run of decimal digits, accumulating their value. -/
def takeDigits (acc : Nat) : List Char → Nat × List Char
  | [] => (acc, [])
  | c :: r =>
    if c.isDigit then takeDigits (acc * 10 + (c.toNat - 48)) r
    else (acc, c :: r)

/-- The `%d` directive: skip whitespace, then an optional sign followed by
at least one digit; fails (matching failure) otherwise. -/
def scanInt (l : List Char) : Option (Int × List Char) :=
  match skipWs l with
  | '-' :: c :: r =>
    if c.isDigit then
      let p := takeDigits 0 (c :: r)
      some (-(p.1 : Int), p.2)
    else none
  | '+' :: c :: r =>
    if c.isDigit then
      let p := takeDigits 0 (c :: r)
      some ((p.1 : Int), p.2)
    else none
  | c :: r =>
    if c.isDigit then
      let p := takeDigits 0 (c :: r)
      some ((p.1 : Int), p.2)
    else none
  | [] => none

/-- A literal character directive of the format string. -/
def expectCh (c : Char) : List Char → Option (List Char)
  | x :: r => if x = c then some r else none
  | [] => none

/-- `sscanf(buffer, "%d-%d-%d %d:%d:%d", ...)`: `some` of the six fields
when all six convert, `none` when the conversion count is short (the C
code only distinguishes `== 6` from everything else). -/
def scanDateTime (l : List Char) :
    Option (Int × Int × Int × Int × Int × Int) := do
  let (y, r1) ← scanInt l
  let r2 ← expectCh '-' r1
  let (mo, r3) ← scanInt r2
  let r4 ← expectCh '-' r3
  let (d, r5) ← scanInt r4
  let (h, r6) ← scanInt (skipWs r5)
  let r7 ← expectCh ':' r6
  let (mi, r8) ← scanInt r7
  let r9 ← expectCh ':' r8
  let (sec, _) ← scanInt r9
  pure (y, mo, d, h, mi, sec)

/-- The three possible outcomes of `getUserTimeInput`: the six validated
fields, the out-of-range rejection branch, or the failed-parse rejection
branch (each prints its own distinct error message in the C code). -/
inductive TimeInput where
  | valid (year month day hour minute second : Int)
  | rangeError
  | formatError
deriving DecidableEq

/-- `getUserTimeInput` from main.c, as a function of the line the user
entered: parse with `scanDateTime`, then apply exactly the range checks of
the source (`year > 1900`, `1 <= month <= 12`, `1 <= day <= 31`,
`0 <= hour < 24`, `0 <= min < 60`, `0 <= sec < 60`). -/
def getUserTimeInput (input : String) : TimeInput :=
  match scanDateTime input.toList with
  | some (y, mo, d, h, mi, sec) =>
    if 1900 < y ∧ 1 ≤ mo ∧ mo ≤ 12 ∧ 1 ≤ d ∧ d ≤ 31 ∧ 0 ≤ h ∧ h < 24 ∧
       0 ≤ mi ∧ mi < 60 ∧ 0 ≤ sec ∧ sec < 60 then
      .valid y mo d h mi sec
    else .rangeError
  | none => .formatError

/-- `setClock` from main.c.  `mktime` is a C-library external, so it is a
parameter; the C code fills `struct tm` with `year - 1900`, `month - 1`
and the remaining fields verbatim, converts, and stores the low 32 bits
into `RTC_TSR`.  The boolean is the `timeSet` flag of the source. -/
def setClock (mktime : Int → Int → Int → Int → Int → Int → Int)
    (input : String) (s : DeviceState) : DeviceState × Bool :=
  match getUserTimeInput input with
  | .valid y mo d h mi sec =>
    ({ s with rtcTSR := toU32 (mktime (y - 1900) (mo - 1) d h mi sec) }, true)
  | _ => (s, false)

/-- `setAlarm` from main.c: on valid input, store `mktime` of the entered
fields into `globalAlarmTime` and arm `RTC_TAR` with its low 32 bits.  The
boolean is the `alarmSet` flag of the source. -/
def setAlarm (mktime : Int → Int → Int → Int → Int → Int → Int)
    (input : String) (s : DeviceState) : DeviceState × Bool :=
  match getUserTimeInput input with
  | .valid y mo d h mi sec =>
    let t := mktime (y - 1900) (mo - 1) d h mi sec
    ({ s with globalAlarmTime := t, rtcTAR := toU32 t }, true)
  | _ => (s, false)

/-! ### The serial input readers -/

/-- The `InterfaceState` enum of main.c. -/
inductive InterfaceState where
  | IDLE
  | READING_INPUT
  | PROCESSING_INPUT
deriving DecidableEq

/-- The state owned by `checkUserInput`: the interface state and the
buffered characters (`inputBuffer[0 .. inputIndex-1]`; the list length
plays the role of `inputIndex`). -/
structure InputSession where
  interfaceState : InterfaceState
  inputBuffer : List Char
deriving DecidableEq

/-- `sizeof(inputBuffer)` in main.c. -/
def inputBufferCap : Nat := 100

/-- One poll of `checkUserInput` from main.c, against the stream of bytes
available on the UART.  In `IDLE`, an available byte only switches the
state to `READING_INPUT` and resets the index, without consuming the byte.
In `READING_INPUT`, one byte is consumed: a byte that is neither a newline
nor a carriage return is appended while `inputIndex < sizeof(inputBuffer)-1`;
otherwise the buffer is terminated and the state becomes
`PROCESSING_INPUT`.  In `PROCESSING_INPUT` the buffered line is dispatched
(`processUserInput`) and the state returns to `IDLE`; the dispatched line
is the third component. -/
def checkUserInput (s : InputSession) (stream : List Char) :
    InputSession × List Char × Option (List Char) :=
  match s.interfaceState with
  | .IDLE =>
    match stream with
    | [] => (s, stream, none)
    | _ :: _ =>
      ({ interfaceState := .READING_INPUT, inputBuffer := [] }, stream, none)
  | .READING_INPUT =>
    match stream with
    | [] => (s, stream, none)
    | c :: rest =>
      if c ≠ '\n' ∧ c ≠ '\r' ∧ s.inputBuffer.length < inputBufferCap - 1 then
        ({ s with inputBuffer := s.inputBuffer ++ [c] }, rest, none)
      else
        ({ s with interfaceState := .PROCESSING_INPUT }, rest, none)
  | .PROCESSING_INPUT =>
    ({ interfaceState := .IDLE, inputBuffer := s.inputBuffer }, stream,
     some s.inputBuffer)

/-- Iterated polling of `checkUserInput`. -/
def pollN : Nat → InputSession → List Char → InputSession × List Char
  | 0, s, stream => (s, stream)
  | n + 1, s, stream =>
    let p := checkUserInput s stream
    pollN n p.1 p.2.1

/-- The loop body of `UARTReceiveStr` from main.c, recursing on the stream
of incoming bytes (the C loop blocks for each byte): a newline or carriage
return as the very first character returns the empty string with flag
`true`; a later one breaks with the buffer and flag `false`; backspace
(`\b`) and delete (octal 177) remove the last buffered character when the
buffer is nonempty; any other byte is appended while the index is below
`bufferSize - 1`.  The do-while guard `i < bufferSize - 1` is re-checked
after each byte; `none` models the call blocking forever on an exhausted
stream. -/
def uartReceiveAux (bufferSize : Nat) :
    List Char → List Char → Option (List Char × Bool)
  | [], _ => none
  | c :: rest, buf =>
    if c = '\n' ∨ c = '\r' then
      if buf.length = 0 then some ([], true) else some (buf, false)
    else
      let buf2 :=
        if c = '\x08' ∨ c = '\x7f' then
          if 0 < buf.length then buf.dropLast else buf
        else if buf.length < bufferSize - 1 then buf ++ [c]
        else buf
      if buf2.length < bufferSize - 1 then uartReceiveAux bufferSize rest buf2
      else some (buf2, false)

/-- `UARTReceiveStr` from main.c against a byte stream: the resulting
buffer contents and the returned boolean (`true` exactly when only a
newline or carriage return was received). -/
def UARTReceiveStr (bufferSize : Nat) (stream : List Char) :
    Option (List Char × Bool) :=
  uartReceiveAux bufferSize stream []

/-! ### LED observation helpers -/

/-- The bit positions of the four indicator LEDs D9..D12 on port B
(mask `0x3C`, bits 2..5). -/
def ledBits : List Nat := [2, 3, 4, 5]

/-- The LEDs lit by a given `PTB->PDOR` value.  The LEDs are active low
(`PortsInit` switches them off by setting their bits), so a lit LED is a
cleared bit. -/
def litLEDs (pdor : Nat) : List Nat :=
  ledBits.filter (fun b => ! pdor.testBit b)

/-! ### Concrete states used by the theorems -/

/-- A device state ready to fire: alarm enabled, otherwise the defaults
(`repeatCount = 5`, `interval = 5`, melody 1, effect 1). -/
def armedState : DeviceState := { initDevice with alarmEnabled := true }

/-- Alarm enabled with `repeatCount = 0` and a positive interval. -/
def zeroRepeatState : DeviceState :=
  { initDevice with
      alarmEnabled := true
      alarmRepeatCount := 0
      alarmIntervalSeconds := 1 }

/-- Alarm enabled with `repeatCount = 2`, `interval = 5`,
`alarmTime = 100`. -/
def repeatRunState : DeviceState :=
  { initDevice with
      alarmEnabled := true
      alarmRepeatCount := 2
      alarmIntervalSeconds := 5
      globalAlarmTime := 100 }

/-- The input reader at startup: `IDLE` with an empty buffer. -/
def idleSession : InputSession := ⟨.IDLE, []⟩

/-- Device state with light effect 2 selected, cursor at step 0. -/
def effect2State : DeviceState := { initDevice with selectedLightEffectID := 2 }

/-! ## Theorems -/

/-- Unfolding lemma: one match evaluation that starts playback prepends
its armed time to the trace. -/
theorem firingTrace_succ_some (fuel : Nat) (s s2 : DeviceState) (t : Int)
    (h : handleAlarmRepeats s = (s2, some t)) :
    firingTrace (fuel + 1) s =
      (t :: (firingTrace fuel s2).1, (firingTrace fuel s2).2) := by
  simp [firingTrace, h]

/-- Unfolding lemma: a match evaluation that starts no playback ends the
trace. -/
theorem firingTrace_succ_none (fuel : Nat) (s s2 : DeviceState)
    (h : handleAlarmRepeats s = (s2, none)) :
    firingTrace (fuel + 1) s = ([], s2) := by
  simp [firingTrace, h]

/-- Helper for the alarm repeat run: from a state whose
`currentRepeatCount` is `alarmRepeatCount + 1 - d`, the run performs `d`
more playback episodes, arming `alarmTime + c * interval` at the episode
with counter value `c`, and the final evaluation clears `RTC_TAR` and
resets the counter to 1. -/
theorem firingTrace_run (d : Nat) :
    ∀ s : DeviceState, s.alarmEnabled = true →
      s.currentRepeatCount = s.alarmRepeatCount + 1 - (d : Int) →
      (d : Int) ≤ s.alarmRepeatCount →
      (firingTrace (d + 1) s).1 =
        (List.range d).map
          (fun (i : Nat) => s.globalAlarmTime +
            (s.alarmRepeatCount + 1 - (d : Int) + (i : Int)) *
              s.alarmIntervalSeconds)
      ∧ (firingTrace (d + 1) s).2.rtcTAR = 0
      ∧ (firingTrace (d + 1) s).2.currentRepeatCount = 1 := by
  induction d with
  | zero =>
    intro s h1 h2 _
    have hc : ¬ s.currentRepeatCount < s.alarmRepeatCount + 1 := by omega
    simp [firingTrace, handleAlarmRepeats, h1, hc]
  | succ d ih =>
    intro s h1 h2 h3
    have hc : s.currentRepeatCount < s.alarmRepeatCount + 1 := by omega
    have hh : handleAlarmRepeats s =
        ({ s with
            isPlayingMelody := true
            isShowingLights := true
            melodyIndex := 0
            lightIndex := 0
            currentRepeatCount := s.currentRepeatCount + 1
            rtcTAR := toU32 (s.globalAlarmTime +
              s.currentRepeatCount * s.alarmIntervalSeconds) },
         some (s.globalAlarmTime +
           s.currentRepeatCount * s.alarmIntervalSeconds)) := by
      simp [handleAlarmRepeats, startMelody, startLightEffect, h1, hc]
    obtain ⟨e1, e2, e3⟩ :=
      ih { s with
            isPlayingMelody := true
            isShowingLights := true
            melodyIndex := 0
            lightIndex := 0
            currentRepeatCount := s.currentRepeatCount + 1
            rtcTAR := toU32 (s.globalAlarmTime +
              s.currentRepeatCount * s.alarmIntervalSeconds) }
        h1 (by dsimp only; omega) (by dsimp only; omega)
    rw [firingTrace_succ_some (d + 1) s _ _ hh]
    refine ⟨?_, by simpa using e2, by simpa using e3⟩
    rw [e1]
    dsimp only
    rw [List.range_succ_eq_map, List.map_cons, List.map_map]
    congr 1
    · dsimp only; rw [h2]; push_cast; ring
    · refine List.map_congr_left fun i _ => ?_
      dsimp only [Function.comp]
      push_cast; ring

/-- Claim C1 (amended): with the alarm enabled, `repeatCount = n`, a
positive interval `k` and a fresh counter, the firing sequence started at
`alarmTime` produces exactly `n` playback episodes (not `n + 1`): the
episode with counter value `i` re-arms the match register to
`alarmTime + i * k` for `i = 1..n`, and the evaluation after the last
episode starts no playback, clears `RTC_TAR` and resets the counter. -/
theorem alarm_repeat_run (n : Nat) (s : DeviceState)
    (h1 : s.alarmEnabled = true)
    (h2 : s.currentRepeatCount = 1)
    (h3 : s.alarmRepeatCount = (n : Int))
    (_h4 : 0 < s.alarmIntervalSeconds) :
    (firingTrace (n + 1) s).1 =
      (List.range n).map
        (fun (i : Nat) =>
          s.globalAlarmTime + ((i : Int) + 1) * s.alarmIntervalSeconds)
    ∧ (firingTrace (n + 1) s).1.length = n
    ∧ (firingTrace (n + 1) s).2.rtcTAR = 0
    ∧ (firingTrace (n + 1) s).2.currentRepeatCount = 1 := by
  obtain ⟨e1, e2, e3⟩ :=
    firingTrace_run n s h1 (by rw [h2, h3]; ring) (by rw [h3])
  refine ⟨?_, ?_, e2, e3⟩
  · rw [e1]
    refine List.map_congr_left fun i _ => ?_
    rw [h3]; ring
  · rw [e1]; simp

/-- Witness for `alarm_repeat_run` at `n = 2`, `k = 5`, `t = 100`. -/
theorem alarm_repeat_run_witness :
    (firingTrace 3 repeatRunState).1 =
      (List.range 2).map
        (fun (i : Nat) => repeatRunState.globalAlarmTime +
          ((i : Int) + 1) * repeatRunState.alarmIntervalSeconds)
    ∧ (firingTrace 3 repeatRunState).1.length = 2
    ∧ (firingTrace 3 repeatRunState).2.rtcTAR = 0
    ∧ (firingTrace 3 repeatRunState).2.currentRepeatCount = 1 :=
  alarm_repeat_run 2 repeatRunState rfl rfl rfl (by decide)

/-- Counterexample to claim C1 as stated: with `repeatCount = 0` and a
positive interval, the run produces zero playback episodes, not
`0 + 1 = 1`; the very first match evaluation clears the register without
ever starting playback. -/
theorem alarm_repeat_count_cex :
    (firingTrace 5 zeroRepeatState).1.length = 0
    ∧ (firingTrace 5 zeroRepeatState).1.length ≠ 0 + 1
    ∧ (firingTrace 5 zeroRepeatState).2.rtcTAR = 0
    ∧ (firingTrace 5 zeroRepeatState).2.currentRepeatCount = 1 := by
  decide

/-- Claim C2 (amended): an invalid repeat count (negative) aborts the
operation with no state change, but an invalid interval does NOT undo the
repeat count: when the count is valid and the interval is not positive,
`alarmRepeatCount` has already been updated and only
`alarmIntervalSeconds` keeps its old value, so a partial update is
applied.  When both are valid, both fields are updated. -/
theorem setAlarmRepeat_update_behavior (r i : Int) (s : DeviceState) :
    (r < 0 → setAlarmRepeat r i s = s)
    ∧ (0 ≤ r → i ≤ 0 →
        setAlarmRepeat r i s = { s with alarmRepeatCount := r })
    ∧ (0 ≤ r → 0 < i →
        setAlarmRepeat r i s =
          { s with alarmRepeatCount := r, alarmIntervalSeconds := i }) := by
  refine ⟨fun h => ?_, fun h hi => ?_, fun h hi => ?_⟩
  · simp [setAlarmRepeat, not_le.mpr h]
  · simp [setAlarmRepeat, h, not_lt.mpr hi]
  · simp [setAlarmRepeat, h, hi]

/-- Witness for `setAlarmRepeat_update_behavior` with valid count 4 and
valid interval 7. -/
theorem setAlarmRepeat_update_behavior_witness :
    setAlarmRepeat 4 7 initDevice =
      { initDevice with alarmRepeatCount := 4, alarmIntervalSeconds := 7 } :=
  (setAlarmRepeat_update_behavior 4 7 initDevice).2.2 (by decide) (by decide)

/-- Counterexample to claim C2 as stated: entering a valid repeat count 3
and an invalid interval 0 leaves `alarmRepeatCount` changed from its
previous value 5 to 3 — the operation does apply a partial update. -/
theorem setAlarmRepeat_partial_update_cex :
    (setAlarmRepeat 3 0 initDevice).alarmRepeatCount = 3
    ∧ (setAlarmRepeat 3 0 initDevice).alarmRepeatCount ≠
        initDevice.alarmRepeatCount
    ∧ (setAlarmRepeat 3 0 initDevice).alarmIntervalSeconds =
        initDevice.alarmIntervalSeconds := by
  decide

/-- A tone step below the note limit only advances the cursor. -/
theorem playNextNote_step (s : DeviceState)
    (h : s.melodyIndex < TOTAL_NOTES) :
    (playNextNote s).1 = { s with melodyIndex := s.melodyIndex + 1 } := by
  simp [playNextNote, h]

/-- A tone step at the note limit emits nothing and deactivates. -/
theorem playNextNote_done (s : DeviceState)
    (h : ¬ s.melodyIndex < TOTAL_NOTES) :
    playNextNote s = ({ s with isPlayingMelody := false }, []) := by
  simp [playNextNote, h]

/-- A light step below the state limit only advances the cursor. -/
theorem updateLights_step (s : DeviceState)
    (h : s.lightIndex < TOTAL_LIGHT_STATES) :
    (updateLights s).1 = { s with lightIndex := s.lightIndex + 1 } := by
  simp [updateLights, h]

/-- A light step at the state limit emits nothing and deactivates. -/
theorem updateLights_done (s : DeviceState)
    (h : ¬ s.lightIndex < TOTAL_LIGHT_STATES) :
    updateLights s = ({ s with isShowingLights := false }, []) := by
  simp [updateLights, h]

/-- As long as the note limit is not passed, `k` tone steps advance the
melody cursor by `k` and touch neither the active flags nor the light
cursor. -/
theorem stepsMelody_fields (k : Nat) :
    ∀ s : DeviceState, s.melodyIndex + (k : Int) ≤ TOTAL_NOTES →
      (stepsMelody k s).1.melodyIndex = s.melodyIndex + (k : Int)
      ∧ (stepsMelody k s).1.isPlayingMelody = s.isPlayingMelody
      ∧ (stepsMelody k s).1.lightIndex = s.lightIndex
      ∧ (stepsMelody k s).1.isShowingLights = s.isShowingLights := by
  induction k with
  | zero => intro s _; simp [stepsMelody]
  | succ k ih =>
    intro s h
    have hlt : s.melodyIndex < TOTAL_NOTES := by
      simp only [TOTAL_NOTES] at h ⊢; omega
    rw [stepsMelody]
    dsimp only
    rw [playNextNote_step s hlt]
    obtain ⟨e1, e2, e3, e4⟩ := ih { s with melodyIndex := s.melodyIndex + 1 }
      (by simp only [TOTAL_NOTES] at h ⊢; omega)
    refine ⟨?_, by rw [e2], by rw [e3], by rw [e4]⟩
    rw [e1]; dsimp only; push_cast; ring

/-- As long as the state limit is not passed, `k` light steps advance the
light cursor by `k` and touch neither the active flags nor the melody
cursor. -/
theorem stepsLights_fields (k : Nat) :
    ∀ s : DeviceState, s.lightIndex + (k : Int) ≤ TOTAL_LIGHT_STATES →
      (stepsLights k s).1.lightIndex = s.lightIndex + (k : Int)
      ∧ (stepsLights k s).1.isShowingLights = s.isShowingLights
      ∧ (stepsLights k s).1.melodyIndex = s.melodyIndex
      ∧ (stepsLights k s).1.isPlayingMelody = s.isPlayingMelody := by
  induction k with
  | zero => intro s _; simp [stepsLights]
  | succ k ih =>
    intro s h
    have hlt : s.lightIndex < TOTAL_LIGHT_STATES := by
      simp only [TOTAL_LIGHT_STATES] at h ⊢; omega
    rw [stepsLights]
    dsimp only
    rw [updateLights_step s hlt]
    obtain ⟨e1, e2, e3, e4⟩ := ih { s with lightIndex := s.lightIndex + 1 }
      (by simp only [TOTAL_LIGHT_STATES] at h ⊢; omega)
    refine ⟨?_, by rw [e2], by rw [e3], by rw [e4]⟩
    rw [e1]; dsimp only; push_cast; ring

/-- The playback loop returns immediately once the melody flag is down. -/
theorem playbackLoop_stopped (g : Nat) (s : DeviceState)
    (h : s.isPlayingMelody = false) : playbackLoop g s = (s, []) := by
  cases g with
  | zero => rfl
  | succ g => simp [playbackLoop, h]

/-- The playback loop, entered with both sequences active, with the two
cursors aligned and `d` tone steps remaining: it finishes with the tone
cursor at 10 and inactive, but the light cursor at 11 and STILL active
(the loop exits because the melody flag drops, and the final iteration
performed one more light step on the way out). -/
theorem playbackLoop_fields (d : Nat) :
    ∀ (f : Nat) (s : DeviceState), s.isPlayingMelody = true →
      s.isShowingLights = true →
      s.melodyIndex + (d : Int) = 10 →
      s.lightIndex = s.melodyIndex →
      d + 1 ≤ f →
      (playbackLoop f s).1.melodyIndex = 10
      ∧ (playbackLoop f s).1.isPlayingMelody = false
      ∧ (playbackLoop f s).1.lightIndex = 11
      ∧ (playbackLoop f s).1.isShowingLights = true := by
  induction d with
  | zero =>
    intro f s hp hs hm hl hf
    obtain ⟨g, rfl⟩ : ∃ g, f = g + 1 := ⟨f - 1, by omega⟩
    have hnd : ¬ s.melodyIndex < TOTAL_NOTES := by
      simp only [TOTAL_NOTES]; omega
    have hld : s.lightIndex < TOTAL_LIGHT_STATES := by
      simp only [TOTAL_LIGHT_STATES]; omega
    rw [playbackLoop]
    dsimp only
    rw [hp, hs]
    simp only [Bool.and_self, if_true]
    rw [playNextNote_done s hnd]
    dsimp only
    rw [updateLights_step _ (by dsimp only; exact hld)]
    rw [playbackLoop_stopped g _ (by dsimp only)]
    dsimp only
    refine ⟨by omega, rfl, by omega, hs⟩
  | succ d ih =>
    intro f s hp hs hm hl hf
    obtain ⟨g, rfl⟩ : ∃ g, f = g + 1 := ⟨f - 1, by omega⟩
    have hmlt : s.melodyIndex < TOTAL_NOTES := by
      simp only [TOTAL_NOTES]; omega
    have hllt : s.lightIndex < TOTAL_LIGHT_STATES := by
      simp only [TOTAL_LIGHT_STATES]; omega
    rw [playbackLoop]
    dsimp only
    rw [hp, hs]
    simp only [Bool.and_self, if_true]
    rw [playNextNote_step s hmlt]
    rw [updateLights_step _ (by dsimp only; exact hllt)]
    exact ih g _ (by dsimp only; exact hp) (by dsimp only; exact hs)
      (by dsimp only; omega) (by dsimp only; omega) (by omega)

/-- Claim C3 (amended): when a match evaluation with the alarm enabled
starts a playback episode, the handler synchronously completes all 10
tone steps before returning, but completes only 11 of the 20 light steps:
the playback loop runs while BOTH sequences are active, so it exits as
soon as the tone sequence deactivates, leaving `lightIndex = 11` and
`isShowingLights` still true. -/
theorem rtc_handler_playback (s : DeviceState)
    (h1 : s.alarmEnabled = true)
    (h2 : s.currentRepeatCount < s.alarmRepeatCount + 1) :
    ((RTC_IRQHandler s).1).melodyIndex = 10
    ∧ ((RTC_IRQHandler s).1).isPlayingMelody = false
    ∧ ((RTC_IRQHandler s).1).lightIndex = 11
    ∧ ((RTC_IRQHandler s).1).isShowingLights = true := by
  have hh : handleAlarmRepeats s =
      ({ s with
          isPlayingMelody := true
          isShowingLights := true
          melodyIndex := 0
          lightIndex := 0
          currentRepeatCount := s.currentRepeatCount + 1
          rtcTAR := toU32 (s.globalAlarmTime +
            s.currentRepeatCount * s.alarmIntervalSeconds) },
       some (s.globalAlarmTime +
         s.currentRepeatCount * s.alarmIntervalSeconds)) := by
    simp [handleAlarmRepeats, startMelody, startLightEffect, h1, h2]
  simp only [RTC_IRQHandler, hh]
  rw [if_pos (by exact h1)]
  dsimp only
  exact playbackLoop_fields 10 30 _ rfl rfl (by norm_num) rfl (by norm_num)

/-- Witness for `rtc_handler_playback` on the armed default state. -/
theorem rtc_handler_playback_witness :
    ((RTC_IRQHandler armedState).1).melodyIndex = 10
    ∧ ((RTC_IRQHandler armedState).1).isPlayingMelody = false
    ∧ ((RTC_IRQHandler armedState).1).lightIndex = 11
    ∧ ((RTC_IRQHandler armedState).1).isShowingLights = true :=
  rtc_handler_playback armedState rfl (by decide)

/-- Counterexample to claim C3 as stated: on the armed default state the
handler returns with `lightIndex = 11`, not 20 — the light sequence did
not complete all 20 of its steps before control returned. -/
theorem rtc_handler_light_incomplete_cex :
    ((RTC_IRQHandler armedState).1).lightIndex = 11
    ∧ ((RTC_IRQHandler armedState).1).lightIndex ≠ 20
    ∧ ((RTC_IRQHandler armedState).1).isShowingLights = true := by
  decide

/-- Claim C4 (amended): after `start(id)`, 10 tone steps emit all 10
hardware tone actions and leave `melodyIndex = 10`, but the cursor is
still marked active (`isPlayingMelody = true`); the 11th step emits no
hardware action and only then deactivates the cursor.  Likewise the light
cursor is still active after 20 steps and the 21st step emits nothing and
deactivates it. -/
theorem sequencer_step_exhaustion (s : DeviceState) (mid lid : Int) :
    ((stepsMelody 10 (startMelody mid s)).1).melodyIndex = 10
    ∧ ((stepsMelody 10 (startMelody mid s)).1).isPlayingMelody = true
    ∧ (playNextNote (stepsMelody 10 (startMelody mid s)).1).2 = []
    ∧ ((playNextNote (stepsMelody 10 (startMelody mid s)).1).1).isPlayingMelody
        = false
    ∧ ((stepsLights 20 (startLightEffect lid s)).1).lightIndex = 20
    ∧ ((stepsLights 20 (startLightEffect lid s)).1).isShowingLights = true
    ∧ (updateLights (stepsLights 20 (startLightEffect lid s)).1).2 = []
    ∧ ((updateLights (stepsLights 20 (startLightEffect lid s)).1).1).isShowingLights
        = false := by
  obtain ⟨m1, m2, _, _⟩ := stepsMelody_fields 10 (startMelody mid s)
    (by simp only [startMelody]; norm_num [TOTAL_NOTES])
  obtain ⟨l1, l2, _, _⟩ := stepsLights_fields 20 (startLightEffect lid s)
    (by simp only [startLightEffect]; norm_num [TOTAL_LIGHT_STATES])
  have hmi : (stepsMelody 10 (startMelody mid s)).1.melodyIndex = 10 := by
    rw [m1]; simp [startMelody]
  have hli : (stepsLights 20 (startLightEffect lid s)).1.lightIndex = 20 := by
    rw [l1]; simp [startLightEffect]
  have hmdone := playNextNote_done (stepsMelody 10 (startMelody mid s)).1
    (by rw [hmi]; simp [TOTAL_NOTES])
  have hldone := updateLights_done (stepsLights 20 (startLightEffect lid s)).1
    (by rw [hli]; simp [TOTAL_LIGHT_STATES])
  refine ⟨hmi, by rw [m2]; rfl, by rw [hmdone], by rw [hmdone],
    hli, by rw [l2]; rfl, by rw [hldone], by rw [hldone]⟩

/-- Counterexample to claim C4 as stated: after `startMelody 1` and
exactly 10 steps the tone cursor is still active, not inactive. -/
theorem tone_cursor_after_ten_steps_cex :
    ((stepsMelody 10 (startMelody 1 initDevice)).1).isPlayingMelody = true
    ∧ ((stepsMelody 10 (startMelody 1 initDevice)).1).isPlayingMelody
        ≠ false := by
  decide

/-- Claim C5 (confirmed): whenever the alarm is disabled, the next match
evaluation resets the repeat counter to its initial value 1, clears the
hardware match register `RTC_TAR`, starts no playback, and the interrupt
handler emits no hardware action at all. -/
theorem disabled_alarm_clears_and_resets (s : DeviceState)
    (h : s.alarmEnabled = false) :
    handleAlarmRepeats s =
      ({ s with currentRepeatCount := 1, rtcTAR := 0 }, none)
    ∧ RTC_IRQHandler s =
      ({ s with currentRepeatCount := 1, rtcTAR := 0 }, []) := by
  refine ⟨by simp [handleAlarmRepeats, h], ?_⟩
  simp [RTC_IRQHandler, handleAlarmRepeats, h]

/-- Witness for `disabled_alarm_clears_and_resets` on a state that is
mid-run (`currentRepeatCount = 4`) when the alarm is disabled. -/
theorem disabled_alarm_clears_and_resets_witness :
    handleAlarmRepeats { initDevice with currentRepeatCount := 4 } =
      ({ initDevice with currentRepeatCount := 1, rtcTAR := 0 }, none)
    ∧ RTC_IRQHandler { initDevice with currentRepeatCount := 4 } =
      ({ initDevice with currentRepeatCount := 1, rtcTAR := 0 }, []) :=
  disabled_alarm_clears_and_resets
    { initDevice with currentRepeatCount := 4 } rfl

/-- Claim C6 (confirmed): the date and time validator rejects a month of
13 through the range-check branch, accepts `2024-02-29 23:59:59`, and
rejects `notadate` through the failed-parse branch, which is distinct
from the range-check branch. -/
theorem datetime_validation_cases :
    getUserTimeInput "2024-13-01 10:00:00" = TimeInput.rangeError
    ∧ getUserTimeInput "2024-02-29 23:59:59" =
        TimeInput.valid 2024 2 29 23 59 59
    ∧ getUserTimeInput "notadate" = TimeInput.formatError := by
  refine ⟨by decide, by decide, by decide⟩

/-- Claim C7 (amended): feeding the bytes `7` and newline drives the
non-blocking reader from `IDLE` through `READING_INPUT` to
`PROCESSING_INPUT` with buffer `7`, as claimed; but in `READING_INPUT`
a backspace byte is NOT interpreted — it is appended to the buffer like
any ordinary character.  Backspace editing (removing the last buffered
character, or reporting an empty line when everything was erased) is
implemented only in the blocking line reader `UARTReceiveStr`. -/
theorem reader_transitions :
    ((pollN 1 idleSession "7\n".toList).1).interfaceState =
      InterfaceState.READING_INPUT
    ∧ ((pollN 3 idleSession "7\n".toList).1).interfaceState =
        InterfaceState.PROCESSING_INPUT
    ∧ ((pollN 3 idleSession "7\n".toList).1).inputBuffer = ['7']
    ∧ ((pollN 3 idleSession ['a', '\x08']).1).inputBuffer = ['a', '\x08']
    ∧ UARTReceiveStr 100 ['a', '\x08', '\n'] = some ([], true) := by
  refine ⟨by decide, by decide, by decide, by decide, by decide⟩

/-- Counterexample to claim C7 as stated: in the non-blocking reader,
one character followed by a backspace leaves a buffer of length 2
(`a` then the backspace byte itself), not an empty buffer. -/
theorem reader_backspace_cex :
    ((pollN 3 idleSession ['a', '\x08']).1).inputBuffer ≠ []
    ∧ ((pollN 3 idleSession ['a', '\x08']).1).inputBuffer.length = 2 := by
  decide

/-- Claim C8 (code bug): light effect 2 at step 0 writes
`~(1 << 0) = 0xFFFFFFFE` to `PTB->PDOR`, which leaves all four LED bits
(2..5) set — the LEDs are active low, so ZERO indicator lines are lit,
contradicting the claim (and the source comment) that exactly one line is
lit per step.  Step 6 likewise lights no LED, so the lit line cannot
cycle through the available set over steps 0..19. -/
theorem light_effect2_lights_no_led :
    (updateLights effect2State).2 =
      [HwAction.pdorSet 4294967294, HwAction.delay 200000]
    ∧ litLEDs 4294967294 = []
    ∧ (updateLights { effect2State with lightIndex := 6 }).2 =
        [HwAction.pdorSet 4294967231, HwAction.delay 200000]
    ∧ litLEDs 4294967231 = [] := by
  decide

/-- Claim C9 (amended): the repeat counter is reset only inside the match
handler (when the alarm is disabled or when the repeat run is exhausted);
the set-alarm operation stores a new alarm time without touching
`currentRepeatCount`. -/
theorem setAlarm_preserves_repeat_progress
    (mktime : Int → Int → Int → Int → Int → Int → Int) (input : String)
    (s : DeviceState) :
    ((setAlarm mktime input s).1).currentRepeatCount =
      s.currentRepeatCount := by
  unfold setAlarm
  split <;> rfl

/-- Counterexample to claim C9 as stated: successfully setting a new
alarm time while `currentRepeatCount = 3` leaves the counter at 3; it is
not reset to its initial value 1. -/
theorem setAlarm_no_reset_cex :
    ((setAlarm (fun _ _ _ _ _ _ => 0) "2024-01-01 00:00:00"
        { initDevice with currentRepeatCount := 3 }).1).currentRepeatCount = 3
    ∧ ((setAlarm (fun _ _ _ _ _ _ => 0) "2024-01-01 00:00:00"
        { initDevice with currentRepeatCount := 3 }).1).currentRepeatCount ≠ 1
    ∧ (setAlarm (fun _ _ _ _ _ _ => 0) "2024-01-01 00:00:00"
        { initDevice with currentRepeatCount := 3 }).2 = true := by
  decide

/-- Claim C10 (confirmed): the validator checks the day only against
1..31, so the calendar-invalid dates February 30 and April 31 are
accepted, and both the set-clock and the set-alarm operations then treat
them as valid input and apply them (reporting success), for any behaviour
of the external `mktime`. -/
theorem day_check_ignores_month :
    getUserTimeInput "2023-02-30 00:00:00" = TimeInput.valid 2023 2 30 0 0 0
    ∧ getUserTimeInput "2024-04-31 00:00:00" =
        TimeInput.valid 2024 4 31 0 0 0
    ∧ (∀ mktime : Int → Int → Int → Int → Int → Int → Int,
        (setClock mktime "2023-02-30 00:00:00" initDevice).2 = true
        ∧ (setAlarm mktime "2023-02-30 00:00:00" initDevice).2 = true
        ∧ (setClock mktime "2024-04-31 00:00:00" initDevice).2 = true
        ∧ (setAlarm mktime "2024-04-31 00:00:00" initDevice).2 = true) := by
  refine ⟨by decide, by decide, fun mktime => ⟨rfl, rfl, rfl, rfl⟩⟩

end Chronproc
